import Mathlib

/-!
Shallow embedding of the Pong repository (settings.py, model.py,
controller.py).  Ball coordinates, velocities and speeds are Python floats,
modelled as real numbers; paddle rectangles are pygame `Rect`s, which store
integer coordinates, modelled over `ℤ`.  The two random draws made by
`Circ.randomize_movement` (`choice` over the list of angle ranges and
`randint` inside the chosen range) are passed in explicitly as a `Draw`;
`Draw.valid` states exactly what the random library guarantees about them.
-/

namespace Pong

/-! ### settings.py -/

def SIZE : ℤ × ℤ := (1600, 1200)

def RECT_SIZE : ℤ × ℤ := (40, 200)

def RECT_COLOR : ℕ × ℕ × ℕ := (255, 255, 255)

def BALL_RADIUS : ℝ := 20

def BALL_COLOR : ℕ × ℕ × ℕ := (255, 255, 255)

def PLAYER1_POS : ℤ × ℤ := (0, 0)

def PLAYER2_POS : ℤ × ℤ := (SIZE.1 - RECT_SIZE.1, 0)

-- (SIZE[0] // 2, SIZE[1] // 2) = (800, 600)
def BALL_START_POS : ℝ × ℝ := (800, 600)

def BALL_STEP : ℝ := 5

def PLAYER_STEP : ℤ := 10

def BALL_SPEED_INCREMENT : ℝ := 5

def WINNING_SCORE : ℕ := 2

-- the DIFFICULTIES dict; the game only ever looks up its three keys
def DIFFICULTIES (d : String) : ℤ :=
  if d = "easy" then 5 else if d = "medium" then 10 else 25

/-- The mutable module-level state of settings.py (the flags mutated by the
controller), with the values they hold once the module body has run
(GAME_MODE = "single" sets PLAYER2_NAME and AUTO). -/
structure GameSettings where
  game_mode_chosen : Bool
  GAME_MODE : String
  difficulty_chosen : Bool
  DIFFICULTY : String
  AUTO : Bool
  PLAYER2_NAME : String

def initial_settings : GameSettings :=
  { game_mode_chosen := false, GAME_MODE := "single",
    difficulty_chosen := false, DIFFICULTY := "hard",
    AUTO := true, PLAYER2_NAME := "Computer" }

/-! ### pygame.Rect (the slice of its interface model.py uses) -/

structure Rect where
  x : ℤ
  y : ℤ
  w : ℤ
  h : ℤ

def Rect.top (r : Rect) : ℤ := r.y

def Rect.bottom (r : Rect) : ℤ := r.y + r.h

/-- `rect.top = v` (assignment): moves the rectangle so its top is `v`. -/
def Rect.setTop (r : Rect) (v : ℤ) : Rect := { r with y := v }

/-- `rect.bottom = v` (assignment): moves the rectangle so its bottom is `v`. -/
def Rect.setBottom (r : Rect) (v : ℤ) : Rect := { r with y := v - r.h }

def Rect.move (r : Rect) (dx dy : ℤ) : Rect := { r with x := r.x + dx, y := r.y + dy }

/-! ### model.py: Player -/

structure Player where
  rect : Rect
  color : ℕ × ℕ × ℕ
  name : String
  auto : Bool
  step : ℤ
  score : ℕ

/-- Player.__init__ -/
def Player.init (starting_pos : ℤ × ℤ) (rect_size : ℤ × ℤ) (color : ℕ × ℕ × ℕ)
    (step : ℤ) (name : String) (auto : Bool) (difficulty_step : ℤ) : Player :=
  { rect := ⟨starting_pos.1, starting_pos.2, rect_size.1, rect_size.2⟩,
    color := color, name := name, auto := auto,
    step := if auto then difficulty_step else step, score := 0 }

def Player.move_down (p : Player) : Player := { p with rect := p.rect.move 0 p.step }

def Player.move_up (p : Player) : Player := { p with rect := p.rect.move 0 (-p.step) }

def Player.prevent_exceed (p : Player) (size : ℤ × ℤ) : Player :=
  let p1 := if p.rect.top < 0 then { p with rect := p.rect.setTop 0 } else p
  if p1.rect.bottom > size.2 then { p1 with rect := p1.rect.setBottom size.2 } else p1

def Player.append_score (p : Player) : Player := { p with score := p.score + 1 }

/-- Player.auto_move: `ball_pos` is the ball's float position. -/
noncomputable def Player.auto_move (p : Player) (ball_pos : ℝ × ℝ) (size : ℤ × ℤ) : Player :=
  let ball_within_paddle :=
    (p.rect.top : ℝ) ≤ ball_pos.2 ∧ ball_pos.2 ≤ ((p.rect.top + p.rect.h : ℤ) : ℝ)
  if p.auto = true ∧ ¬ ball_within_paddle then
    let rect_x1 : ℤ := p.rect.top
    let rect_x2 : ℤ := p.rect.top + p.rect.h
    let is_too_low := ball_pos.2 < ((rect_x1 + rect_x2 : ℤ) : ℝ) / 2
    let is_too_high := ball_pos.2 > ((rect_x1 + rect_x2 : ℤ) : ℝ) / 2
    let next_top : ℤ := p.rect.top - p.step
    let next_bottom : ℤ := p.rect.top + p.rect.h + p.step
    let not_out_of_bounds_up := next_top ≥ 0
    let not_out_of_bounds_down := next_bottom ≤ size.2
    if is_too_low ∧ not_out_of_bounds_up then p.move_up
    else if is_too_high ∧ not_out_of_bounds_down then p.move_down
    else p
  else p

/-! ### model.py: Circ (the ball) -/

structure Circ where
  radius : ℝ
  pos : ℝ × ℝ
  color : ℕ × ℕ × ℕ
  step : ℝ
  movement : ℝ × ℝ

/-- The two random draws of Circ.randomize_movement: `choice(ranges)` picks
the range at index `rangeIdx`, `randint` samples `angle`. -/
structure Draw where
  rangeIdx : Fin 3
  angle : ℕ

def slope : ℕ := 20

/-- The list `ranges` built in Circ.randomize_movement. -/
def ranges : Fin 3 → ℕ × ℕ
  | 0 => (0, 90 - slope)
  | 1 => (90 + slope, 270 - slope)
  | 2 => (270 + slope, 360)

/-- What `random.randint(a, b)` guarantees: the sampled angle lies inclusively
within the chosen range. -/
def Draw.valid (d : Draw) : Prop :=
  (ranges d.rangeIdx).1 ≤ d.angle ∧ d.angle ≤ (ranges d.rangeIdx).2

instance (d : Draw) : Decidable d.valid := by
  unfold Draw.valid; exact inferInstance

/-- The angle lies in one of the three configured ranges. -/
def angle_allowed (a : ℕ) : Prop :=
  ∃ i : Fin 3, (ranges i).1 ≤ a ∧ a ≤ (ranges i).2

/-- math.radians -/
noncomputable def radians (angle : ℕ) : ℝ := angle * Real.pi / 180

noncomputable def Circ.randomize_movement (c : Circ) (d : Draw) : Circ :=
  let angle := d.angle
  let x := c.step * Real.cos (radians angle)
  let y := c.step * Real.sin (radians angle)
  { c with movement := (x, (-1) * y) }

/-- Circ.__init__ (class attributes give movement its pre-randomize value). -/
noncomputable def Circ.init (radius : ℝ) (pos : ℝ × ℝ) (color : ℕ × ℕ × ℕ)
    (step : ℝ) (d : Draw) : Circ :=
  Circ.randomize_movement
    { radius := radius, pos := pos, color := color, step := step, movement := (0, 0) } d

def Circ.bounce (c : Circ) (which_wall : String) : Circ :=
  let c1 :=
    if which_wall = "vertical" then
      { c with movement := ((-1) * c.movement.1, c.movement.2) }
    else c
  if which_wall = "horizontal" then
    { c1 with movement := (c1.movement.1, (-1) * c1.movement.2) }
  else c1

def Circ.get_x_movement (c : Circ) : ℝ := c.movement.1

def Circ.get_y_movement (c : Circ) : ℝ := c.movement.2

def Circ.move_to_start (c : Circ) (start_pos : ℝ × ℝ) : Circ := { c with pos := start_pos }

noncomputable def Circ.speed_up (c : Circ) (increment : ℝ) (up : Bool) : Circ :=
  let movement := (c.movement.1 / c.step, c.movement.2 / c.step)
  let step := if up = true then c.step + increment else increment
  { c with step := step, movement := (movement.1 * step, movement.2 * step) }

noncomputable def Circ.set_step (c : Circ) (step : ℝ) : Circ := c.speed_up step false

noncomputable def Circ.start_over (c : Circ) (d : Draw) : Circ :=
  (((c.move_to_start BALL_START_POS).randomize_movement d).set_step BALL_STEP)

/-- The Euclidean magnitude of the ball's movement vector (the scalar speed
the spec talks about). -/
noncomputable def Circ.speed (c : Circ) : ℝ :=
  Real.sqrt (c.movement.1 ^ 2 + c.movement.2 ^ 2)

/-! ### model.py: Model -/

structure Model where
  p1 : Player
  p2 : Player
  ball : Circ

/-- Model.__init__ (menu buttons carry no game logic and are left out). -/
noncomputable def Model.init (s : GameSettings) (d : Draw) : Model :=
  { p1 := Player.init PLAYER1_POS RECT_SIZE RECT_COLOR PLAYER_STEP "Player 1" false 0,
    p2 := Player.init PLAYER2_POS RECT_SIZE RECT_COLOR PLAYER_STEP s.PLAYER2_NAME
            s.AUTO (DIFFICULTIES s.DIFFICULTY),
    ball := Circ.init BALL_RADIUS BALL_START_POS BALL_COLOR BALL_STEP d }

def Model.check_winner (m : Model) : Option Player :=
  if m.p1.score ≥ WINNING_SCORE then some m.p1
  else if m.p2.score ≥ WINNING_SCORE then some m.p2
  else none

def Model.update_ball_pos (m : Model) : Model :=
  { m with ball := { m.ball with
      pos := (m.ball.pos.1 + m.ball.get_x_movement, m.ball.pos.2 + m.ball.get_y_movement) } }

def Model.player1_collision (ball_obj : Circ) (player : Player) : Prop :=
  let dimensions := player.rect
  ((dimensions.y : ℝ) ≤ ball_obj.pos.2 ∧ ball_obj.pos.2 ≤ ((dimensions.y + dimensions.h : ℤ) : ℝ))
    ∧ ball_obj.pos.1 - ball_obj.radius ≤ (dimensions.w : ℝ)

def Model.player2_collision (ball_obj : Circ) (player : Player) : Prop :=
  let dimensions := player.rect
  ((dimensions.y : ℝ) ≤ ball_obj.pos.2 ∧ ball_obj.pos.2 ≤ ((dimensions.y + dimensions.h : ℤ) : ℝ))
    ∧ ball_obj.pos.1 + ball_obj.radius ≥ (dimensions.x : ℝ)

def Model.ball_horizontal_wall_collision (ball_obj : Circ) : Prop :=
  ball_obj.pos.2 - ball_obj.radius ≤ 0 ∨ ball_obj.pos.2 + ball_obj.radius ≥ (SIZE.2 : ℝ)

noncomputable instance (b : Circ) (p : Player) : Decidable (Model.player1_collision b p) := by
  unfold Model.player1_collision; exact inferInstance

noncomputable instance (b : Circ) (p : Player) : Decidable (Model.player2_collision b p) := by
  unfold Model.player2_collision; exact inferInstance

noncomputable instance (b : Circ) : Decidable (Model.ball_horizontal_wall_collision b) := by
  unfold Model.ball_horizontal_wall_collision; exact inferInstance

noncomputable def Model.ball_vertical_wall_collision (ball_obj : Circ) : ℤ :=
  if ball_obj.pos.1 - ball_obj.radius ≤ 0 then -1
  else if ball_obj.pos.1 + ball_obj.radius ≥ (SIZE.1 : ℝ) then 1
  else 0

/-- Model.update, lines 69-77: clamp both paddles, move the ball, bounce off
the top/bottom wall. -/
noncomputable def Model.move_stage (m : Model) : Model :=
  let m1 := { m with p1 := m.p1.prevent_exceed SIZE, p2 := m.p2.prevent_exceed SIZE }
  let m2 := m1.update_ball_pos
  if Model.ball_horizontal_wall_collision m2.ball then
    { m2 with ball := m2.ball.bounce "horizontal" }
  else m2

/-- Model.update, lines 78-81: after the move stage, handle a paddle hit
(speed-up plus vertical bounce). -/
noncomputable def Model.advance_and_collide (m : Model) : Model :=
  let m3 := m.move_stage
  if Model.player1_collision m3.ball m3.p1 ∨ Model.player2_collision m3.ball m3.p2 then
    { m3 with ball := (m3.ball.speed_up BALL_SPEED_INCREMENT true).bounce "vertical" }
  else m3

/-- Model.update, lines 83-97: score off the left/right wall, check the
winner, reset the ball only when the game goes on.  Returns the updated model
and the winner (None in the source). -/
noncomputable def Model.update (m : Model) (d : Draw) : Model × Option Player :=
  let m4 := m.advance_and_collide
  let vertical_collision := Model.ball_vertical_wall_collision m4.ball
  if vertical_collision ≠ 0 then
    let m5 :=
      if vertical_collision = -1 then { m4 with p2 := m4.p2.append_score }
      else { m4 with p1 := m4.p1.append_score }
    match m5.check_winner with
    | none => ({ m5 with ball := m5.ball.start_over d }, none)
    | some w => (m5, some w)
  else (m4, none)

/-- Model.update_step -/
def Model.update_step (m : Model) (s : GameSettings) : Model :=
  if s.AUTO = true then { m with p2 := { m.p2 with step := DIFFICULTIES s.DIFFICULTY } }
  else { m with p2 := { m.p2 with step := PLAYER_STEP } }

/-! ### controller.py -/

-- the pygame event-type and key constants the controller uses
def QUIT_EVENT : ℕ := 256

def KEYDOWN_EVENT : ℕ := 768

def MOUSEBUTTONUP_EVENT : ℕ := 1026

def K_ESCAPE : ℕ := 27

/-- One pygame event as the controller reads it: its type, its key (key-down
events) and its button (mouse events). -/
structure Event where
  type : ℕ
  key : ℕ
  button : ℕ

/-- The controller state handle_events touches: the running flag, the
settings module and the model. -/
structure CState where
  running : Bool
  settings : GameSettings
  model : Model

def CState.apply_difficulty (st : CState) (difficulty : String) : CState :=
  let s := { st.settings with difficulty_chosen := true, DIFFICULTY := difficulty }
  { st with settings := s, model := st.model.update_step s }

def CState.apply_single_mode (st : CState) : CState :=
  let s := { st.settings with game_mode_chosen := true, GAME_MODE := "single", AUTO := true }
  let m := { st.model with p2 := { st.model.p2 with auto := true } }
  { st with settings := s, model := m.update_step s }

def CState.apply_multi_mode (st : CState) : CState :=
  let s := { st.settings with game_mode_chosen := true, GAME_MODE := "multiplayer", AUTO := false }
  { st with settings := s, model := st.model.update_step s }

/-- The body of the event loop in Controller.handle_events for one event.
`buttons_hovered` is None in the playing state and the hover dictionary in
the two menu states.  Note the source nests its quit test inside the
key-down branch. -/
def CState.handle_one_event (st : CState) (buttons_hovered : Option (String → Bool))
    (event : Event) : CState :=
  let st1 :=
    if event.type = KEYDOWN_EVENT ∧ (event.type = QUIT_EVENT ∨ event.key = K_ESCAPE) then
      { st with running := false }
    else st
  match buttons_hovered with
  | none => st1
  | some hovered =>
    if event.type = MOUSEBUTTONUP_EVENT then
      if event.button = 1 ∧ hovered "multi" = true ∧ st1.settings.game_mode_chosen = false then
        st1.apply_multi_mode
      else if event.button = 1 ∧ hovered "single" = true ∧ st1.settings.game_mode_chosen = false then
        st1.apply_single_mode
      else if event.button = 1 ∧ hovered "easy" = true then st1.apply_difficulty "easy"
      else if event.button = 1 ∧ hovered "medium" = true then st1.apply_difficulty "medium"
      else if event.button = 1 ∧ hovered "hard" = true then st1.apply_difficulty "hard"
      else st1
    else st1

/-- Controller.handle_events: fold the per-event body over the tick's event
queue. -/
def CState.handle_events (st : CState) (buttons_hovered : Option (String → Bool))
    (events : List Event) : CState :=
  events.foldl (fun s e => s.handle_one_event buttons_hovered e) st

/-! ### Reachable ball states and repeated AI moves -/

/-- The ball states the game can reach: the ball built by Model.__init__,
then closed under the operations Model.update performs on it (position
update, wall bounce, the paddle-hit speed-up, and the reset after a point).
Draws carry randint's in-range guarantee. -/
inductive ReachableBall : Circ → Prop
  | init (d : Draw) (hd : d.valid) :
      ReachableBall (Circ.init BALL_RADIUS BALL_START_POS BALL_COLOR BALL_STEP d)
  | move (c : Circ) (h : ReachableBall c) :
      ReachableBall { c with pos := (c.pos.1 + c.movement.1, c.pos.2 + c.movement.2) }
  | bounce (c : Circ) (w : String) (h : ReachableBall c) : ReachableBall (c.bounce w)
  | speed_up (c : Circ) (h : ReachableBall c) :
      ReachableBall (c.speed_up BALL_SPEED_INCREMENT true)
  | start_over (c : Circ) (d : Draw) (hd : d.valid) (h : ReachableBall c) :
      ReachableBall (c.start_over d)

/-- The AI paddle after `n` ticks of Controller.handle_player_movement_input
against a resting ball: auto_move applied `n` times. -/
noncomputable def iterated_auto_move (p : Player) (ball_pos : ℝ × ℝ) (size : ℤ × ℤ) : ℕ → Player
  | 0 => p
  | n + 1 => (iterated_auto_move p ball_pos size n).auto_move ball_pos size

/-! ### The spec's wording of the paddle-collision predicate (for comparison
with the source's) -/

/-- Spec wording, left paddle: the ball's vertical center lies within the
paddle's vertical span and the ball's leading (left) edge has crossed the
paddle's facing (right) edge. -/
def spec_player1_collision (ball : Circ) (p : Player) : Prop :=
  ((p.rect.y : ℝ) ≤ ball.pos.2 ∧ ball.pos.2 ≤ ((p.rect.y + p.rect.h : ℤ) : ℝ)) ∧
    ball.pos.1 - ball.radius ≤ ((p.rect.x + p.rect.w : ℤ) : ℝ)

/-- Spec wording, right paddle: vertical spans as above, and the ball's
leading (right) edge has crossed the paddle's facing (left) edge. -/
def spec_player2_collision (ball : Circ) (p : Player) : Prop :=
  ((p.rect.y : ℝ) ≤ ball.pos.2 ∧ ball.pos.2 ≤ ((p.rect.y + p.rect.h : ℤ) : ℝ)) ∧
    ball.pos.1 + ball.radius ≥ (p.rect.x : ℝ)

/-- The movement direction normalised to a unit vector. -/
noncomputable def Circ.unit_direction (c : Circ) : ℝ × ℝ :=
  (c.movement.1 / c.speed, c.movement.2 / c.speed)

/-! ### Concrete sample states used by witnesses and counterexamples -/

def sample_player : Player :=
  { rect := ⟨0, 500, 40, 200⟩, color := RECT_COLOR, name := "Player 1",
    auto := false, step := 10, score := 0 }

def sample_ball : Circ :=
  { radius := 20, pos := (25, 600), color := BALL_COLOR, step := 5, movement := (3, 4) }

/-- The ball Model.__init__ builds when the random draw picks the first range
and the angle 0. -/
noncomputable def ball0 : Circ :=
  Circ.init BALL_RADIUS BALL_START_POS BALL_COLOR BALL_STEP ⟨0, 0⟩

noncomputable def sample_cstate : CState :=
  { running := true, settings := initial_settings,
    model := Model.init initial_settings ⟨0, 0⟩ }

/-- The AI paddle of the C9 scenario: span y ∈ [500, 700], step 10. -/
def ai_player : Player :=
  { rect := ⟨1560, 500, 40, 200⟩, color := RECT_COLOR, name := "Computer",
    auto := true, step := 10, score := 0 }

def ai_ball_pos : ℝ × ℝ := (800, 300)

/-- A two-player match one point from the end: player 1 has 1 of the 2 points
and the ball is about to leave through the right wall. -/
def sample_match : Model :=
  { p1 := { rect := ⟨0, 0, 40, 200⟩, color := RECT_COLOR, name := "Player 1",
            auto := false, step := 10, score := 1 },
    p2 := { rect := ⟨1560, 0, 40, 200⟩, color := RECT_COLOR, name := "Player 2",
            auto := false, step := 10, score := 0 },
    ball := { radius := 20, pos := (1575, 600), color := BALL_COLOR, step := 5,
              movement := (30, 10) } }

/-! ### Theorems -/

/-! #### Angle and speed facts about the ball -/

lemma allowed_of_valid (d : Draw) (h : d.valid) : angle_allowed d.angle := ⟨d.rangeIdx, h⟩

lemma allowed_bounds (a : ℕ) (h : angle_allowed a) : a ≤ 360 ∧ a ≠ 90 ∧ a ≠ 270 := by
  obtain ⟨i, h1, h2⟩ := h
  fin_cases i <;> simp [ranges, slope] at h1 h2 <;> omega

/-- The configured angle ranges keep the direction away from vertical: the
cosine of an allowed angle is never zero. -/
lemma cos_radians_ne_zero (a : ℕ) (h : angle_allowed a) : Real.cos (radians a) ≠ 0 := by
  obtain ⟨h360, h90, h270⟩ := allowed_bounds a h
  intro hc
  rw [Real.cos_eq_zero_iff] at hc
  obtain ⟨k, hk⟩ := hc
  have hpi : (0 : ℝ) < Real.pi := Real.pi_pos
  have key : (a : ℝ) = 180 * (k : ℝ) + 90 := by
    unfold radians at hk
    have h2 : (a : ℝ) * Real.pi = (180 * (k : ℝ) + 90) * Real.pi := by
      ring_nf at hk ⊢
      linarith
    exact mul_right_cancel₀ (ne_of_gt hpi) h2
  have keyz : (a : ℤ) = 180 * k + 90 := by exact_mod_cast key
  omega

lemma sqrt_trig (s θ : ℝ) (hs : 0 ≤ s) :
    Real.sqrt ((s * Real.cos θ) ^ 2 + ((-1) * (s * Real.sin θ)) ^ 2) = s := by
  have h1 : (s * Real.cos θ) ^ 2 + ((-1) * (s * Real.sin θ)) ^ 2 = s ^ 2 := by
    have h2 := Real.sin_sq_add_cos_sq θ
    nlinarith [h2]
  rw [h1, Real.sqrt_sq hs]

lemma randomize_speed (c : Circ) (d : Draw) (h : 0 ≤ c.step) :
    (c.randomize_movement d).speed = c.step := by
  unfold Circ.randomize_movement Circ.speed
  exact sqrt_trig c.step (radians d.angle) h

lemma bounce_fields (c : Circ) (w : String) :
    (c.bounce w).step = c.step ∧ (c.bounce w).radius = c.radius ∧ (c.bounce w).pos = c.pos := by
  unfold Circ.bounce
  split_ifs <;> simp

lemma bounce_speed (c : Circ) (w : String) : (c.bounce w).speed = c.speed := by
  unfold Circ.bounce Circ.speed
  split_ifs <;> dsimp only <;> congr 1 <;> ring

lemma speed_up_inc (c : Circ) (v : ℝ) (hs : c.speed = c.step) (h0 : 0 < c.step)
    (hv : 0 ≤ c.step + v) :
    (c.speed_up v true).step = c.step + v ∧
    (c.speed_up v true).speed = c.step + v ∧
    (c.speed_up v true).movement =
      (c.movement.1 / c.step * (c.step + v), c.movement.2 / c.step * (c.step + v)) ∧
    (c.speed_up v true).radius = c.radius ∧ (c.speed_up v true).pos = c.pos := by
  have e3 : (c.speed_up v true).movement =
      (c.movement.1 / c.step * (c.step + v), c.movement.2 / c.step * (c.step + v)) := rfl
  refine ⟨rfl, ?_, e3, rfl, rfl⟩
  unfold Circ.speed
  rw [e3]
  dsimp only
  have harg : (c.movement.1 / c.step * (c.step + v)) ^ 2 +
      (c.movement.2 / c.step * (c.step + v)) ^ 2 =
      ((c.step + v) / c.step) ^ 2 * (c.movement.1 ^ 2 + c.movement.2 ^ 2) := by
    ring
  rw [harg, Real.sqrt_mul (sq_nonneg _),
    Real.sqrt_sq (div_nonneg hv h0.le)]
  have hsp : Real.sqrt (c.movement.1 ^ 2 + c.movement.2 ^ 2) = c.step := hs
  rw [hsp]
  field_simp

lemma set_step_spec (c : Circ) (s : ℝ) :
    (c.set_step s).step = s ∧
    (c.set_step s).movement = (c.movement.1 / c.step * s, c.movement.2 / c.step * s) ∧
    (c.set_step s).radius = c.radius ∧ (c.set_step s).pos = c.pos :=
  ⟨rfl, rfl, rfl, rfl⟩

lemma start_over_spec (c : Circ) (d : Draw) (hs : c.step ≠ 0) :
    (c.start_over d).pos = BALL_START_POS ∧
    (c.start_over d).step = BALL_STEP ∧
    (c.start_over d).movement =
      (BALL_STEP * Real.cos (radians d.angle), (-1) * (BALL_STEP * Real.sin (radians d.angle))) ∧
    (c.start_over d).radius = c.radius := by
  refine ⟨rfl, rfl, ?_, rfl⟩
  have e : (c.start_over d).movement =
      ((c.step * Real.cos (radians d.angle)) / c.step * BALL_STEP,
       ((-1) * (c.step * Real.sin (radians d.angle))) / c.step * BALL_STEP) := rfl
  rw [e]
  simp only [Prod.mk.injEq]
  constructor <;> field_simp <;> ring

lemma start_over_speed (c : Circ) (d : Draw) (hs : c.step ≠ 0) :
    (c.start_over d).speed = BALL_STEP := by
  obtain ⟨-, -, e3, -⟩ := start_over_spec c d hs
  unfold Circ.speed
  rw [e3]
  exact sqrt_trig BALL_STEP (radians d.angle) (by norm_num [BALL_STEP])

/-- The ball invariant: in every reachable ball state the movement magnitude
equals the step field and the step never drops below the configured initial
step. -/
lemma reachable_invariant (c : Circ) (h : ReachableBall c) :
    c.speed = c.step ∧ BALL_STEP ≤ c.step := by
  induction h with
  | init d hd =>
      constructor
      · exact randomize_speed
          { radius := BALL_RADIUS, pos := BALL_START_POS, color := BALL_COLOR,
            step := BALL_STEP, movement := (0, 0) } d (by norm_num [BALL_STEP])
      · exact le_refl BALL_STEP
  | move c hc ih => exact ih
  | bounce c w hc ih =>
      rw [bounce_speed c w, (bounce_fields c w).1]
      exact ih
  | speed_up c hc ih =>
      obtain ⟨hs, hb⟩ := ih
      have hb5 : (5 : ℝ) ≤ c.step := by
        have := hb
        norm_num [BALL_STEP] at this
        exact this
      have h0 : 0 < c.step := by linarith
      have hv : 0 ≤ c.step + BALL_SPEED_INCREMENT := by
        norm_num [BALL_SPEED_INCREMENT]
        linarith
      obtain ⟨e1, e2, -, -, -⟩ := speed_up_inc c BALL_SPEED_INCREMENT hs h0 hv
      rw [e1, e2]
      refine ⟨rfl, ?_⟩
      norm_num [BALL_STEP, BALL_SPEED_INCREMENT]
      linarith
  | start_over c d hd hc ih =>
      obtain ⟨-, hb⟩ := ih
      have hs0 : c.step ≠ 0 := by
        intro h0
        rw [h0] at hb
        norm_num [BALL_STEP] at hb
      obtain ⟨-, e2, -, -⟩ := start_over_spec c d hs0
      rw [e2, start_over_speed c d hs0]
      exact ⟨rfl, le_refl _⟩

/-- In every reachable ball state the horizontal movement component is
non-zero: the sampled angle stays at least `slope` degrees away from the
vertical, and the later rescalings never kill the component. -/
lemma reachable_x_ne (c : Circ) (h : ReachableBall c) : c.movement.1 ≠ 0 := by
  induction h with
  | init d hd =>
      show BALL_STEP * Real.cos (radians d.angle) ≠ 0
      exact mul_ne_zero (by norm_num [BALL_STEP]) (cos_radians_ne_zero _ (allowed_of_valid d hd))
  | move c hc ih => exact ih
  | bounce c w hc ih =>
      unfold Circ.bounce
      split_ifs <;> dsimp only <;> simpa using ih
  | speed_up c hc ih =>
      obtain ⟨hs, hb⟩ := reachable_invariant c hc
      have hb5 : (5 : ℝ) ≤ c.step := by
        have := hb
        norm_num [BALL_STEP] at this
        exact this
      have h0 : 0 < c.step := by linarith
      have hv : 0 ≤ c.step + BALL_SPEED_INCREMENT := by
        norm_num [BALL_SPEED_INCREMENT]
        linarith
      obtain ⟨-, -, e3, -, -⟩ := speed_up_inc c BALL_SPEED_INCREMENT hs h0 hv
      rw [e3]
      dsimp only
      refine mul_ne_zero (div_ne_zero ih (ne_of_gt h0)) ?_
      norm_num [BALL_SPEED_INCREMENT]
      linarith
  | start_over c d hd hc ih =>
      obtain ⟨-, hb⟩ := reachable_invariant c hc
      have hs0 : c.step ≠ 0 := by
        intro h0
        rw [h0] at hb
        norm_num [BALL_STEP] at hb
      obtain ⟨-, -, e3, -⟩ := start_over_spec c d hs0
      rw [e3]
      dsimp only
      exact mul_ne_zero (by norm_num [BALL_STEP]) (cos_radians_ne_zero _ (allowed_of_valid d hd))

/-! #### One-step facts about Player.auto_move -/

lemma auto_move_within (p : Player) (bp : ℝ × ℝ) (size : ℤ × ℤ)
    (h : (p.rect.top : ℝ) ≤ bp.2 ∧ bp.2 ≤ ((p.rect.top + p.rect.h : ℤ) : ℝ)) :
    p.auto_move bp size = p := by
  simp only [Player.auto_move]
  rw [if_neg]
  intro hc
  exact hc.2 h

lemma auto_move_up_ok (p : Player) (bp : ℝ × ℝ) (size : ℤ × ℤ) (ha : p.auto = true)
    (hnw : ¬ ((p.rect.top : ℝ) ≤ bp.2 ∧ bp.2 ≤ ((p.rect.top + p.rect.h : ℤ) : ℝ)))
    (hlow : bp.2 < ((p.rect.top + (p.rect.top + p.rect.h) : ℤ) : ℝ) / 2)
    (hok : 0 ≤ p.rect.top - p.step) :
    p.auto_move bp size = p.move_up := by
  simp only [Player.auto_move]
  rw [if_pos ⟨ha, hnw⟩, if_pos ⟨hlow, hok⟩]

lemma auto_move_up_suppressed (p : Player) (bp : ℝ × ℝ) (size : ℤ × ℤ) (ha : p.auto = true)
    (hnw : ¬ ((p.rect.top : ℝ) ≤ bp.2 ∧ bp.2 ≤ ((p.rect.top + p.rect.h : ℤ) : ℝ)))
    (hlow : bp.2 < ((p.rect.top + (p.rect.top + p.rect.h) : ℤ) : ℝ) / 2)
    (hno : p.rect.top - p.step < 0) :
    p.auto_move bp size = p := by
  simp only [Player.auto_move]
  rw [if_pos ⟨ha, hnw⟩, if_neg (fun hc => absurd hc.2 (by omega)),
    if_neg (fun hc => absurd hlow (not_lt.2 hc.1.le))]

lemma auto_move_down_ok (p : Player) (bp : ℝ × ℝ) (size : ℤ × ℤ) (ha : p.auto = true)
    (hnw : ¬ ((p.rect.top : ℝ) ≤ bp.2 ∧ bp.2 ≤ ((p.rect.top + p.rect.h : ℤ) : ℝ)))
    (hhigh : bp.2 > ((p.rect.top + (p.rect.top + p.rect.h) : ℤ) : ℝ) / 2)
    (hok : p.rect.top + p.rect.h + p.step ≤ size.2) :
    p.auto_move bp size = p.move_down := by
  simp only [Player.auto_move]
  rw [if_pos ⟨ha, hnw⟩, if_neg (fun hc => absurd hhigh (not_lt.2 hc.1.le)),
    if_pos ⟨hhigh, hok⟩]

lemma auto_move_down_suppressed (p : Player) (bp : ℝ × ℝ) (size : ℤ × ℤ) (ha : p.auto = true)
    (hnw : ¬ ((p.rect.top : ℝ) ≤ bp.2 ∧ bp.2 ≤ ((p.rect.top + p.rect.h : ℤ) : ℝ)))
    (hhigh : bp.2 > ((p.rect.top + (p.rect.top + p.rect.h) : ℤ) : ℝ) / 2)
    (hno : size.2 < p.rect.top + p.rect.h + p.step) :
    p.auto_move bp size = p := by
  simp only [Player.auto_move]
  rw [if_pos ⟨ha, hnw⟩, if_neg (fun hc => absurd hhigh (not_lt.2 hc.1.le)),
    if_neg (fun hc => absurd hc.2 (by omega))]

/-! #### The C9 scenario: ai_player against a ball resting at y = 300 -/

lemma ai_step (y : ℤ) (h1 : 310 ≤ y) :
    ({ ai_player with rect := ⟨1560, y, 40, 200⟩ } : Player).auto_move ai_ball_pos SIZE =
      { ai_player with rect := ⟨1560, y - 10, 40, 200⟩ } := by
  rw [auto_move_up_ok]
  · simp only [Player.move_up, Rect.move, ai_player]
    norm_num
    omega
  · rfl
  · intro hw
    obtain ⟨hA, -⟩ := hw
    have hy : (y : ℝ) ≤ 300 := by simpa [ai_ball_pos, Rect.top] using hA
    have hy' : y ≤ 300 := by exact_mod_cast hy
    omega
  · show ai_ball_pos.2 < _
    simp only [ai_ball_pos, Rect.top]
    push_cast
    have hy : (310 : ℝ) ≤ (y : ℝ) := by exact_mod_cast h1
    linarith
  · simp only [Rect.top]
    show (0 : ℤ) ≤ y - 10
    omega

lemma ai_iter_le (k : ℕ) (hk : k ≤ 20) :
    iterated_auto_move ai_player ai_ball_pos SIZE k =
      { ai_player with rect := ⟨1560, 500 - 10 * (k : ℤ), 40, 200⟩ } := by
  induction k with
  | zero =>
      simp only [iterated_auto_move]
      norm_num [ai_player]
  | succ n ihn =>
      have ih := ihn (by omega)
      simp only [iterated_auto_move]
      rw [ih, ai_step (500 - 10 * (n : ℤ)) (by omega)]
      have he : (500 : ℤ) - 10 * (n : ℤ) - 10 = 500 - 10 * ((n + 1 : ℕ) : ℤ) := by
        push_cast
        ring
      rw [he]

lemma ai_iter_ge (k : ℕ) (hk : 20 ≤ k) :
    iterated_auto_move ai_player ai_ball_pos SIZE k =
      iterated_auto_move ai_player ai_ball_pos SIZE 20 := by
  have h20 : iterated_auto_move ai_player ai_ball_pos SIZE 20 =
      { ai_player with rect := ⟨1560, 300, 40, 200⟩ } := by
    rw [ai_iter_le 20 (le_refl 20)]
    norm_num
  induction k, hk using Nat.le_induction with
  | base => rfl
  | succ n hn ih =>
      have step1 : iterated_auto_move ai_player ai_ball_pos SIZE (n + 1) =
          (iterated_auto_move ai_player ai_ball_pos SIZE n).auto_move ai_ball_pos SIZE := rfl
      rw [step1, ih, h20]
      rw [auto_move_within]
      refine ⟨by simp [ai_ball_pos, Rect.top], ?_⟩
      simp [ai_ball_pos, Rect.top]
      norm_num

/-! #### Facts about one Model.update tick -/

lemma move_stage_players (m : Model) :
    (m.move_stage).p1 = m.p1.prevent_exceed SIZE ∧
    (m.move_stage).p2 = m.p2.prevent_exceed SIZE := by
  simp only [Model.move_stage, Model.update_ball_pos]
  split_ifs <;> exact ⟨rfl, rfl⟩

lemma advance_players (m : Model) :
    (m.advance_and_collide).p1 = m.p1.prevent_exceed SIZE ∧
    (m.advance_and_collide).p2 = m.p2.prevent_exceed SIZE := by
  simp only [Model.advance_and_collide]
  split_ifs <;> exact move_stage_players m

lemma move_stage_ball (m : Model) :
    (m.move_stage).ball.pos =
      (m.ball.pos.1 + m.ball.movement.1, m.ball.pos.2 + m.ball.movement.2) ∧
    (m.move_stage).ball.step = m.ball.step ∧
    (m.move_stage).ball.radius = m.ball.radius := by
  simp only [Model.move_stage, Model.update_ball_pos, Circ.get_x_movement,
    Circ.get_y_movement]
  split_ifs with h
  · exact ⟨(bounce_fields _ _).2.2, (bounce_fields _ _).1, (bounce_fields _ _).2.1⟩
  · exact ⟨rfl, rfl, rfl⟩

/-- The speed-up increment is applied exactly when a paddle hit is detected,
and never for a top/bottom-wall hit. -/
lemma advance_step (m : Model) :
    (m.advance_and_collide).ball.step =
      if Model.player1_collision (m.move_stage).ball (m.move_stage).p1 ∨
          Model.player2_collision (m.move_stage).ball (m.move_stage).p2 then
        m.ball.step + BALL_SPEED_INCREMENT
      else m.ball.step := by
  simp only [Model.advance_and_collide]
  split_ifs with h
  · rw [(bounce_fields _ _).1]
    have e1 : ((m.move_stage).ball.speed_up BALL_SPEED_INCREMENT true).step =
        (m.move_stage).ball.step + BALL_SPEED_INCREMENT := rfl
    rw [e1, (move_stage_ball m).2.1]
  · exact (move_stage_ball m).2.1

lemma vc_cases (b : Circ) :
    Model.ball_vertical_wall_collision b = -1 ∨
    Model.ball_vertical_wall_collision b = 0 ∨
    Model.ball_vertical_wall_collision b = 1 := by
  unfold Model.ball_vertical_wall_collision
  split_ifs <;> simp

lemma update_no_score (m : Model) (d : Draw)
    (h : Model.ball_vertical_wall_collision (m.advance_and_collide).ball = 0) :
    m.update d = (m.advance_and_collide, none) := by
  simp only [Model.update]
  rw [if_neg (not_not_intro h)]

lemma update_p1_wins (m : Model) (d : Draw)
    (h : Model.ball_vertical_wall_collision (m.advance_and_collide).ball = 1)
    (hw : WINNING_SCORE ≤ (m.advance_and_collide).p1.score + 1) :
    m.update d =
      ({ m.advance_and_collide with p1 := (m.advance_and_collide).p1.append_score },
        some ((m.advance_and_collide).p1.append_score)) := by
  have hcw : ({ m.advance_and_collide with
      p1 := (m.advance_and_collide).p1.append_score } : Model).check_winner
      = some ((m.advance_and_collide).p1.append_score) := by
    unfold Model.check_winner
    rw [if_pos]
    exact hw
  simp only [Model.update]
  rw [h]
  rw [if_pos (by norm_num : ¬ (1 : ℤ) = 0), if_neg (by norm_num : ¬ (1 : ℤ) = -1), hcw]

lemma update_p1_scores (m : Model) (d : Draw)
    (h : Model.ball_vertical_wall_collision (m.advance_and_collide).ball = 1)
    (hw1 : (m.advance_and_collide).p1.score + 1 < WINNING_SCORE)
    (hw2 : (m.advance_and_collide).p2.score < WINNING_SCORE) :
    m.update d =
      ({ m.advance_and_collide with
          p1 := (m.advance_and_collide).p1.append_score
          ball := (m.advance_and_collide).ball.start_over d }, none) := by
  have hcw : ({ m.advance_and_collide with
      p1 := (m.advance_and_collide).p1.append_score } : Model).check_winner = none := by
    unfold Model.check_winner
    rw [if_neg (by exact not_le.2 hw1), if_neg (by exact not_le.2 hw2)]
  simp only [Model.update]
  rw [h]
  rw [if_pos (by norm_num : ¬ (1 : ℤ) = 0), if_neg (by norm_num : ¬ (1 : ℤ) = -1), hcw]

lemma update_p2_wins (m : Model) (d : Draw)
    (h : Model.ball_vertical_wall_collision (m.advance_and_collide).ball = -1)
    (h1 : (m.advance_and_collide).p1.score < WINNING_SCORE)
    (h2 : WINNING_SCORE ≤ (m.advance_and_collide).p2.score + 1) :
    m.update d =
      ({ m.advance_and_collide with p2 := (m.advance_and_collide).p2.append_score },
        some ((m.advance_and_collide).p2.append_score)) := by
  have hcw : ({ m.advance_and_collide with
      p2 := (m.advance_and_collide).p2.append_score } : Model).check_winner
      = some ((m.advance_and_collide).p2.append_score) := by
    unfold Model.check_winner
    rw [if_neg (by exact not_le.2 h1), if_pos]
    exact h2
  simp only [Model.update]
  rw [h]
  rw [if_pos (by norm_num : ¬ (-1 : ℤ) = 0), if_pos (by norm_num : (-1 : ℤ) = -1), hcw]

lemma update_p2_scores (m : Model) (d : Draw)
    (h : Model.ball_vertical_wall_collision (m.advance_and_collide).ball = -1)
    (h1 : (m.advance_and_collide).p1.score < WINNING_SCORE)
    (h2 : (m.advance_and_collide).p2.score + 1 < WINNING_SCORE) :
    m.update d =
      ({ m.advance_and_collide with
          p2 := (m.advance_and_collide).p2.append_score
          ball := (m.advance_and_collide).ball.start_over d }, none) := by
  have hcw : ({ m.advance_and_collide with
      p2 := (m.advance_and_collide).p2.append_score } : Model).check_winner = none := by
    unfold Model.check_winner
    rw [if_neg (by exact not_le.2 h1), if_neg (by exact not_le.2 h2)]
  simp only [Model.update]
  rw [h]
  rw [if_pos (by norm_num : ¬ (-1 : ℤ) = 0), if_pos (by norm_num : (-1 : ℤ) = -1), hcw]

/-- In every branch of a tick, the paddles end clamped to the arena and are
otherwise exactly the input paddles (only a score can change). -/
lemma update_player_rects (m : Model) (d : Draw) :
    (m.update d).1.p1.rect = (m.p1.prevent_exceed SIZE).rect ∧
    (m.update d).1.p2.rect = (m.p2.prevent_exceed SIZE).rect := by
  have hp := advance_players m
  have e1 := congrArg Player.rect hp.1
  have e2 := congrArg Player.rect hp.2
  simp only [Model.update]
  split_ifs with hvc hneg
  · cases hw : ({ m.advance_and_collide with
        p2 := (m.advance_and_collide).p2.append_score } : Model).check_winner with
    | none => exact ⟨e1, e2⟩
    | some w => exact ⟨e1, e2⟩
  · cases hw : ({ m.advance_and_collide with
        p1 := (m.advance_and_collide).p1.append_score } : Model).check_winner with
    | none => exact ⟨e1, e2⟩
    | some w => exact ⟨e1, e2⟩
  · exact ⟨e1, e2⟩

/-! #### The C3 scenario: player 1 one point from winning -/

lemma sample_advance :
    sample_match.advance_and_collide =
      { sample_match with ball := { sample_match.ball with pos := (1605, 610) } } := by
  have hc1 : sample_match.p1.prevent_exceed SIZE = sample_match.p1 := rfl
  have hc2 : sample_match.p2.prevent_exceed SIZE = sample_match.p2 := rfl
  unfold Model.advance_and_collide Model.move_stage Model.update_ball_pos
  rw [hc1, hc2]
  dsimp only
  split_ifs with h1 h2 h2
  · exfalso
    revert h1
    norm_num [Model.ball_horizontal_wall_collision, sample_match, SIZE,
      Circ.get_x_movement, Circ.get_y_movement]
  · exfalso
    revert h1
    norm_num [Model.ball_horizontal_wall_collision, sample_match, SIZE,
      Circ.get_x_movement, Circ.get_y_movement]
  · exfalso
    revert h2
    norm_num [Model.player1_collision, Model.player2_collision, sample_match,
      Circ.get_x_movement, Circ.get_y_movement]
  · norm_num [sample_match, Circ.get_x_movement, Circ.get_y_movement]

lemma sample_vc :
    Model.ball_vertical_wall_collision (sample_match.advance_and_collide).ball = 1 := by
  rw [sample_advance]
  unfold Model.ball_vertical_wall_collision
  rw [if_neg (by norm_num [sample_match, SIZE]), if_pos (by norm_num [sample_match, SIZE])]

/-- Claim C3: one tick clamps both paddles, adds the velocity to the ball
position, bounces off the top/bottom wall without touching the speed,
applies the speed increment exactly once per paddle hit, then scores off the
left/right wall: on a winning point it returns the scorer and leaves the
ball where it exited, on a non-winning point it resets the ball and returns
none, and with no point it returns none with the ball in place; in the
concrete threshold-2 match, the tick on which player 1 reaches 2 returns
player 1 (score 2) and the ball stays at its exit position (1605, 610). -/
theorem C3_tick :
    (∀ (m : Model) (d : Draw),
      (m.update d).1.p1.rect = (m.p1.prevent_exceed SIZE).rect ∧
      (m.update d).1.p2.rect = (m.p2.prevent_exceed SIZE).rect) ∧
    (∀ m : Model,
      (m.move_stage).ball.pos =
        (m.ball.pos.1 + m.ball.movement.1, m.ball.pos.2 + m.ball.movement.2)) ∧
    (∀ m : Model,
      (m.advance_and_collide).ball.step =
        if Model.player1_collision (m.move_stage).ball (m.move_stage).p1 ∨
            Model.player2_collision (m.move_stage).ball (m.move_stage).p2 then
          m.ball.step + BALL_SPEED_INCREMENT
        else m.ball.step) ∧
    (∀ (m : Model) (d : Draw),
      Model.ball_vertical_wall_collision (m.advance_and_collide).ball = 0 →
        m.update d = (m.advance_and_collide, none)) ∧
    (∀ (m : Model) (d : Draw),
      Model.ball_vertical_wall_collision (m.advance_and_collide).ball = 1 →
      WINNING_SCORE ≤ (m.advance_and_collide).p1.score + 1 →
        m.update d =
          ({ m.advance_and_collide with p1 := (m.advance_and_collide).p1.append_score },
            some ((m.advance_and_collide).p1.append_score))) ∧
    (∀ (m : Model) (d : Draw),
      Model.ball_vertical_wall_collision (m.advance_and_collide).ball = 1 →
      (m.advance_and_collide).p1.score + 1 < WINNING_SCORE →
      (m.advance_and_collide).p2.score < WINNING_SCORE →
        m.update d =
          ({ m.advance_and_collide with
              p1 := (m.advance_and_collide).p1.append_score
              ball := (m.advance_and_collide).ball.start_over d }, none)) ∧
    (∀ (m : Model) (d : Draw),
      Model.ball_vertical_wall_collision (m.advance_and_collide).ball = -1 →
      (m.advance_and_collide).p1.score < WINNING_SCORE →
      WINNING_SCORE ≤ (m.advance_and_collide).p2.score + 1 →
        m.update d =
          ({ m.advance_and_collide with p2 := (m.advance_and_collide).p2.append_score },
            some ((m.advance_and_collide).p2.append_score))) ∧
    (∀ (m : Model) (d : Draw),
      Model.ball_vertical_wall_collision (m.advance_and_collide).ball = -1 →
      (m.advance_and_collide).p1.score < WINNING_SCORE →
      (m.advance_and_collide).p2.score + 1 < WINNING_SCORE →
        m.update d =
          ({ m.advance_and_collide with
              p2 := (m.advance_and_collide).p2.append_score
              ball := (m.advance_and_collide).ball.start_over d }, none)) ∧
    (sample_match.update ⟨0, 0⟩).2 =
      some { rect := ⟨0, 0, 40, 200⟩, color := RECT_COLOR, name := "Player 1",
             auto := false, step := 10, score := 2 } ∧
    (sample_match.update ⟨0, 0⟩).1.ball.pos = (1605, 610) := by
  have hw : WINNING_SCORE ≤ (sample_match.advance_and_collide).p1.score + 1 := by
    rw [sample_advance]
    norm_num [sample_match, WINNING_SCORE]
  have hupd := update_p1_wins sample_match ⟨0, 0⟩ sample_vc hw
  refine ⟨update_player_rects, fun m => (move_stage_ball m).1, advance_step,
    update_no_score, update_p1_wins, update_p1_scores, update_p2_wins, update_p2_scores,
    ?_, ?_⟩
  · rw [hupd]
    rw [sample_advance]
    norm_num [sample_match, Player.append_score, RECT_COLOR]
  · rw [hupd, sample_advance]

/-- Claim C9: the AI paddle idles when the ball's y is within its span,
otherwise moves exactly one step toward the ball's y, and only when the
paddle after the full step stays inside the arena's vertical bounds (the
one-edge test of the source equals the full-bounds test for an in-bounds
paddle); and in the scenario (span [500, 700], ball y 300, step 10, arena
height 1200) it moves one step up per tick for 20 ticks, then idles forever,
its top never above the arena's top bound. -/
theorem C9_auto_move :
    (∀ (p : Player) (bp : ℝ × ℝ) (size : ℤ × ℤ),
      ((p.rect.top : ℝ) ≤ bp.2 ∧ bp.2 ≤ ((p.rect.top + p.rect.h : ℤ) : ℝ)) →
        p.auto_move bp size = p) ∧
    (∀ (p : Player) (bp : ℝ × ℝ) (size : ℤ × ℤ), p.auto = true →
      ¬ ((p.rect.top : ℝ) ≤ bp.2 ∧ bp.2 ≤ ((p.rect.top + p.rect.h : ℤ) : ℝ)) →
      bp.2 < ((p.rect.top + (p.rect.top + p.rect.h) : ℤ) : ℝ) / 2 →
        (0 ≤ p.rect.top - p.step → p.auto_move bp size = p.move_up) ∧
        (p.rect.top - p.step < 0 → p.auto_move bp size = p)) ∧
    (∀ (p : Player) (bp : ℝ × ℝ) (size : ℤ × ℤ), p.auto = true →
      ¬ ((p.rect.top : ℝ) ≤ bp.2 ∧ bp.2 ≤ ((p.rect.top + p.rect.h : ℤ) : ℝ)) →
      bp.2 > ((p.rect.top + (p.rect.top + p.rect.h) : ℤ) : ℝ) / 2 →
        (p.rect.top + p.rect.h + p.step ≤ size.2 → p.auto_move bp size = p.move_down) ∧
        (size.2 < p.rect.top + p.rect.h + p.step → p.auto_move bp size = p)) ∧
    (∀ (p : Player) (size : ℤ × ℤ), 0 ≤ p.step → p.rect.bottom ≤ size.2 →
      (0 ≤ p.rect.top - p.step ↔
        0 ≤ (p.move_up).rect.top ∧ (p.move_up).rect.bottom ≤ size.2)) ∧
    (∀ (p : Player) (size : ℤ × ℤ), 0 ≤ p.step → 0 ≤ p.rect.top →
      (p.rect.top + p.rect.h + p.step ≤ size.2 ↔
        0 ≤ (p.move_down).rect.top ∧ (p.move_down).rect.bottom ≤ size.2)) ∧
    (∀ k : ℕ, k ≤ 20 →
      iterated_auto_move ai_player ai_ball_pos SIZE k =
        { ai_player with rect := ⟨1560, 500 - 10 * (k : ℤ), 40, 200⟩ }) ∧
    (∀ k : ℕ, 20 ≤ k →
      iterated_auto_move ai_player ai_ball_pos SIZE k =
        iterated_auto_move ai_player ai_ball_pos SIZE 20) ∧
    (∀ k : ℕ, 0 ≤ (iterated_auto_move ai_player ai_ball_pos SIZE k).rect.top) := by
  refine ⟨auto_move_within, ?_, ?_, ?_, ?_, ai_iter_le, ai_iter_ge, ?_⟩
  · intro p bp size ha hnw hlow
    exact ⟨auto_move_up_ok p bp size ha hnw hlow, auto_move_up_suppressed p bp size ha hnw hlow⟩
  · intro p bp size ha hnw hhigh
    exact ⟨auto_move_down_ok p bp size ha hnw hhigh,
      auto_move_down_suppressed p bp size ha hnw hhigh⟩
  · intro p size hstep hbot
    simp only [Player.move_up, Rect.move, Rect.top, Rect.bottom] at hbot ⊢
    omega
  · intro p size hstep htop
    simp only [Player.move_down, Rect.move, Rect.top, Rect.bottom] at htop ⊢
    omega
  · intro k
    rcases le_or_lt k 20 with hk | hk
    · rw [ai_iter_le k hk]
      simp only [Rect.top]
      omega
    · rw [ai_iter_ge k hk.le, ai_iter_le 20 (le_refl 20)]
      simp only [Rect.top]
      omega

/-- Claim C1 fails on the code: the angle ranges only exclude near-vertical
directions, so the ball Model.__init__ builds from the valid draw (first
range, angle 0) is reachable and moves purely horizontally — its vertical
movement component is exactly zero. -/
theorem C1_pure_horizontal_reachable :
    (⟨(0 : Fin 3), 0⟩ : Draw).valid ∧ ReachableBall ball0 ∧ ball0.movement.2 = 0 := by
  refine ⟨by decide, ReachableBall.init ⟨0, 0⟩ (by decide), ?_⟩
  have e : ball0.movement.2 = (-1) * (BALL_STEP * Real.sin (radians 0)) := rfl
  have hr : radians 0 = 0 := by
    unfold radians
    norm_num
  rw [e, hr, Real.sin_zero]
  ring

/-- Claim C1 amended: every reachable ball state has a non-zero horizontal
movement component (the sampled angle stays at least 20 degrees away from
vertical), but the vertical component can vanish (angles 0, 180 and 360 are
allowed), so only purely vertical motion is unreachable. -/
theorem C1_horizontal_never_zero (c : Circ) (h : ReachableBall c) : c.movement.1 ≠ 0 :=
  reachable_x_ne c h

/-- Witness for the amended C1 at the concrete reachable ball `ball0`. -/
theorem C1_horizontal_never_zero_witness :
    ReachableBall ball0 ∧ ball0.movement.1 ≠ 0 :=
  ⟨ReachableBall.init ⟨0, 0⟩ (by decide),
    C1_horizontal_never_zero ball0 (ReachableBall.init ⟨0, 0⟩ (by decide))⟩

/-- Claim C6: for a ball whose movement magnitude equals its positive step,
speed_up in increment mode adds exactly v (v ≥ 0) to both the magnitude and
the step field and leaves the unit direction of the movement unchanged
(exactly, over the reals). -/
theorem C6_speed_up_exact (c : Circ) (v : ℝ) (hs : c.speed = c.step) (h0 : 0 < c.step)
    (hv : 0 ≤ v) :
    (c.speed_up v true).speed = c.speed + v ∧
    (c.speed_up v true).step = c.step + v ∧
    (c.speed_up v true).unit_direction = c.unit_direction := by
  have hv' : 0 ≤ c.step + v := by linarith
  obtain ⟨e1, e2, e3, -, -⟩ := speed_up_inc c v hs h0 hv'
  refine ⟨by rw [e2, hs], e1, ?_⟩
  unfold Circ.unit_direction
  rw [e2, e3, hs]
  have ht : c.step + v ≠ 0 := by positivity
  have hst : c.step ≠ 0 := ne_of_gt h0
  dsimp only
  simp only [Prod.mk.injEq]
  constructor <;> field_simp <;> ring

/-- Witness for C6 at the ball with movement (3, 4), step 5 and increment 5. -/
theorem C6_speed_up_exact_witness :
    sample_ball.speed = sample_ball.step ∧ 0 < sample_ball.step ∧ (0 : ℝ) ≤ 5 ∧
    ((sample_ball.speed_up 5 true).speed = sample_ball.speed + 5 ∧
     (sample_ball.speed_up 5 true).step = sample_ball.step + 5 ∧
     (sample_ball.speed_up 5 true).unit_direction = sample_ball.unit_direction) := by
  have hs : sample_ball.speed = sample_ball.step := by
    unfold sample_ball Circ.speed
    rw [show ((3 : ℝ), (4 : ℝ)).1 ^ 2 + ((3 : ℝ), (4 : ℝ)).2 ^ 2 = 5 ^ 2 by norm_num,
      Real.sqrt_sq (by norm_num)]
  have h0 : 0 < sample_ball.step := by norm_num [sample_ball]
  exact ⟨hs, h0, by norm_num, C6_speed_up_exact sample_ball 5 hs h0 (by norm_num)⟩

/-- Claim C7: after start_over from any ball state with a non-zero step, the
ball sits at the configured arena center, its step field and movement
magnitude equal the configured initial step, and the movement comes from an
angle inside one of the three configured ranges. -/
theorem C7_reset (c : Circ) (d : Draw) (hs : c.step ≠ 0) (hd : d.valid) :
    (c.start_over d).pos = BALL_START_POS ∧
    (c.start_over d).step = BALL_STEP ∧
    (c.start_over d).speed = BALL_STEP ∧
    angle_allowed d.angle ∧
    (c.start_over d).movement =
      (BALL_STEP * Real.cos (radians d.angle), (-1) * (BALL_STEP * Real.sin (radians d.angle))) := by
  obtain ⟨e1, e2, e3, -⟩ := start_over_spec c d hs
  exact ⟨e1, e2, start_over_speed c d hs, allowed_of_valid d hd, e3⟩

/-- Witness for C7 at the ball with movement (3, 4), step 5 and the valid
draw (first range, angle 0). -/
theorem C7_reset_witness :
    sample_ball.step ≠ 0 ∧ (⟨(0 : Fin 3), 0⟩ : Draw).valid ∧
    ((sample_ball.start_over ⟨0, 0⟩).pos = BALL_START_POS ∧
     (sample_ball.start_over ⟨0, 0⟩).step = BALL_STEP ∧
     (sample_ball.start_over ⟨0, 0⟩).speed = BALL_STEP ∧
     angle_allowed (⟨(0 : Fin 3), 0⟩ : Draw).angle ∧
     (sample_ball.start_over ⟨0, 0⟩).movement =
       (BALL_STEP * Real.cos (radians (⟨(0 : Fin 3), 0⟩ : Draw).angle),
        (-1) * (BALL_STEP * Real.sin (radians (⟨(0 : Fin 3), 0⟩ : Draw).angle)))) :=
  ⟨by norm_num [sample_ball], by decide,
    C7_reset sample_ball ⟨0, 0⟩ (by norm_num [sample_ball]) (by decide)⟩

/-- Claim C10: in every reachable ball state the movement magnitude equals
the step field, the step never drops below the configured initial step, and
in particular the step is never zero, so the division inside speed_up is
always well-defined. -/
theorem C10_speed_invariant (c : Circ) (h : ReachableBall c) :
    c.speed = c.step ∧ BALL_STEP ≤ c.step ∧ c.step ≠ 0 := by
  obtain ⟨h1, h2⟩ := reachable_invariant c h
  refine ⟨h1, h2, ?_⟩
  intro h0
  rw [h0] at h2
  norm_num [BALL_STEP] at h2

/-- Witness for C10 at the concrete reachable ball `ball0`. -/
theorem C10_speed_invariant_witness :
    ReachableBall ball0 ∧
    (ball0.speed = ball0.step ∧ BALL_STEP ≤ ball0.step ∧ ball0.step ≠ 0) :=
  ⟨ReachableBall.init ⟨0, 0⟩ (by decide),
    C10_speed_invariant ball0 (ReachableBall.init ⟨0, 0⟩ (by decide))⟩

/-- Claim C5: the vertical-wall check returns -1 exactly when the ball's left
extent is ≤ 0, else +1 exactly when its right extent is ≥ the arena width,
else 0, the left check first (closed comparisons); with radius 20 a ball at
(0, 600) yields -1 and a ball at (1600, 600) yields +1. -/
theorem C5_vertical_wall_collision :
    (∀ b : Circ,
      (Model.ball_vertical_wall_collision b = -1 ↔ b.pos.1 - b.radius ≤ 0) ∧
      (Model.ball_vertical_wall_collision b = 1 ↔
        ¬ b.pos.1 - b.radius ≤ 0 ∧ b.pos.1 + b.radius ≥ (SIZE.1 : ℝ)) ∧
      (Model.ball_vertical_wall_collision b = 0 ↔
        ¬ b.pos.1 - b.radius ≤ 0 ∧ ¬ b.pos.1 + b.radius ≥ (SIZE.1 : ℝ))) ∧
    Model.ball_vertical_wall_collision ⟨20, (0, 600), BALL_COLOR, 5, (3, 4)⟩ = -1 ∧
    Model.ball_vertical_wall_collision ⟨20, (1600, 600), BALL_COLOR, 5, (3, 4)⟩ = 1 := by
  refine ⟨fun b => ?_, ?_, ?_⟩
  · unfold Model.ball_vertical_wall_collision
    split_ifs with h1 h2 <;> refine ⟨?_, ?_, ?_⟩ <;> simp [h1] <;> simp_all
  · unfold Model.ball_vertical_wall_collision
    norm_num [SIZE]
  · unfold Model.ball_vertical_wall_collision
    norm_num [SIZE]

/-- Claim C4: the paddle-collision predicates say: ball's vertical center in
the paddle's vertical span, and the ball's leading edge past the paddle's
facing edge (for the left paddle, which sits at the arena-left edge x = 0;
for the right paddle at any position); and the player-1 check holds for the
paddle spanning y ∈ [500, 700] with a ball at (25, 600) of radius 20. -/
theorem C4_paddle_collision :
    (∀ (ball : Circ) (p : Player), p.rect.x = 0 →
      (Model.player1_collision ball p ↔ spec_player1_collision ball p)) ∧
    (∀ (ball : Circ) (p : Player),
      (Model.player2_collision ball p ↔ spec_player2_collision ball p)) ∧
    Model.player1_collision ⟨20, (25, 600), BALL_COLOR, 5, (-3, 4)⟩ sample_player := by
  refine ⟨fun ball p hx => ?_, fun ball p => Iff.rfl, ?_⟩
  · unfold Model.player1_collision spec_player1_collision
    rw [hx]
    norm_num
  · unfold Model.player1_collision sample_player
    norm_num

/-- Claim C8: after prevent_exceed against the arena, a paddle whose height
does not exceed the arena height lies fully within the vertical bounds, and
every other field of the paddle is unchanged. -/
theorem C8_prevent_exceed (p : Player) (hh : p.rect.h ≤ SIZE.2) :
    0 ≤ (p.prevent_exceed SIZE).rect.top ∧
    (p.prevent_exceed SIZE).rect.bottom ≤ SIZE.2 ∧
    (p.prevent_exceed SIZE).rect.x = p.rect.x ∧
    (p.prevent_exceed SIZE).rect.w = p.rect.w ∧
    (p.prevent_exceed SIZE).rect.h = p.rect.h ∧
    (p.prevent_exceed SIZE).color = p.color ∧
    (p.prevent_exceed SIZE).name = p.name ∧
    (p.prevent_exceed SIZE).auto = p.auto ∧
    (p.prevent_exceed SIZE).step = p.step ∧
    (p.prevent_exceed SIZE).score = p.score := by
  simp only [Player.prevent_exceed, Rect.top, Rect.bottom, Rect.setTop, Rect.setBottom,
    SIZE] at hh ⊢
  split_ifs <;> simp_all

/-- Witness for C8 at a concrete paddle sticking out above the arena. -/
theorem C8_prevent_exceed_witness :
    sample_player.rect.h ≤ SIZE.2 ∧
    (0 ≤ (sample_player.prevent_exceed SIZE).rect.top ∧
     (sample_player.prevent_exceed SIZE).rect.bottom ≤ SIZE.2 ∧
     (sample_player.prevent_exceed SIZE).rect.x = sample_player.rect.x ∧
     (sample_player.prevent_exceed SIZE).rect.w = sample_player.rect.w ∧
     (sample_player.prevent_exceed SIZE).rect.h = sample_player.rect.h ∧
     (sample_player.prevent_exceed SIZE).color = sample_player.color ∧
     (sample_player.prevent_exceed SIZE).name = sample_player.name ∧
     (sample_player.prevent_exceed SIZE).auto = sample_player.auto ∧
     (sample_player.prevent_exceed SIZE).step = sample_player.step ∧
     (sample_player.prevent_exceed SIZE).score = sample_player.score) :=
  ⟨by decide, by
    refine C8_prevent_exceed sample_player ?_
    decide⟩

/-- Claim C2 is a code bug: the quit test in Controller.handle_events is
nested inside the key-down branch, so a tick whose queue holds only a
quit-request event leaves the running flag true in every state (hovered
dictionary present or not), while an escape key-down does end the loop. -/
theorem C2_quit_event_ignored :
    (sample_cstate.handle_events none [⟨QUIT_EVENT, 0, 0⟩]).running = true ∧
    (sample_cstate.handle_events (some fun _ => false) [⟨QUIT_EVENT, 0, 0⟩]).running = true ∧
    (sample_cstate.handle_events none [⟨KEYDOWN_EVENT, K_ESCAPE, 0⟩]).running = false ∧
    (sample_cstate.handle_events (some fun _ => false) [⟨KEYDOWN_EVENT, K_ESCAPE, 0⟩]).running
      = false := by
  refine ⟨?_, ?_, ?_, ?_⟩ <;>
    simp [CState.handle_events, CState.handle_one_event, QUIT_EVENT, KEYDOWN_EVENT,
      K_ESCAPE, MOUSEBUTTONUP_EVENT, sample_cstate]

end Pong
